import Mathlib

/-!
Shallow embedding of the scoring and cross-document aggregation core of the
faculty evaluation dashboard (src/evaluation.py) and of the marks export
script (src/export_marks.py).

Question banks are modelled as lists of rows; a row carries the stringified
QuestionID, the raw Type tag, and the result of probing the answer columns
(the first non-missing value among the probed column names, still untrimmed).
The two files probe slightly different column-name lists, but every claim
treats the probe result abstractly, so one field suffices.

Responses carry the stringified QuestionID and the stringified submitted
value. Firestore documents and the document store are modelled explicitly
further below.
-/

namespace Skill2025

/-- ASCII lower-casing of one character, as Python str.lower() acts on the
characters occurring in this program's data. -/
def charLower (c : Char) : Char :=
  if 'A' ≤ c ∧ c ≤ 'Z' then Char.ofNat (c.toNat + 32) else c

/-- Model of Python str.lower(). -/
def pyLower (s : String) : String := String.mk (s.toList.map charLower)

/-- The whitespace characters stripped by Python str.strip(). -/
def isPySpace (c : Char) : Bool :=
  c == ' ' || c == '\t' || c == '\n' || c == '\r' || c == '\x0b' || c == '\x0c'

/-- Model of Python str.strip(). -/
def pyStrip (s : String) : String :=
  String.mk (((s.toList.dropWhile isPySpace).reverse.dropWhile isPySpace).reverse)

/-- One row of a loaded question bank (pandas DataFrame row). -/
structure QRow where
  qid : String
  qtype : String
  ans : Option String
deriving DecidableEq

/-- One submitted response of a student document. -/
structure Response where
  qid : String
  resp : String
deriving DecidableEq

/-- Model of Python int(...) applied to the digit part: all characters must
be decimal digits and there must be at least one. -/
def digitsToNat (cs : List Char) : Option Nat :=
  if cs = [] then none
  else if cs.all (fun c => c.isDigit) then
    some (cs.foldl (fun n c => n * 10 + (c.toNat - 48)) 0)
  else none

/-- Model of Python int(...) on a list of characters: an optional sign
followed by one or more digits. -/
def pyIntChars (cs : List Char) : Option Int :=
  match cs with
  | '+' :: rest => (digitsToNat rest).map (fun n => (n : Int))
  | '-' :: rest => (digitsToNat rest).map (fun n => -(n : Int))
  | other => (digitsToNat other).map (fun n => (n : Int))

/-- Model of Python int(str): surrounding whitespace is ignored, then an
optional sign and one or more digits; anything else raises (here: none). -/
def pyInt (s : String) : Option Int :=
  pyIntChars (pyStrip s).toList

/-- evaluation.py line 138. -/
def FOUR_MARK_QIDS : List Int := [12, 13, 14, 16, 17, 18]

/-- evaluation.py line 139. -/
def THREE_MARK_QIDS : List Int := [22, 23, 24, 25, 28, 29, 30, 34]

/-- Model of the test s.lower().startswith("q") on an already stripped
string: the first character is a lower- or upper-case q. -/
def pyLowerStartswithQ (s : String) : Bool :=
  match s.toList with
  | [] => false
  | c :: _ => c == 'q' || c == 'Q'

/-- evaluation.py parse_int_qid (lines 142-150): strip, drop one leading
q/Q, parse as int; -1 on failure. Python s[1:] is embedded at the
character-list level. -/
def parse_int_qid (qid : String) : Int :=
  let s := pyStrip qid
  let s2 := if pyLowerStartswithQ s then String.mk (s.toList.drop 1) else s
  (pyInt s2).getD (-1)

/-- evaluation.py get_text_scale (lines 153-160). -/
def get_text_scale (qid : String) : List Int :=
  let q := parse_int_qid qid
  if q ∈ FOUR_MARK_QIDS then [0, 1, 2, 3]
  else if q ∈ THREE_MARK_QIDS then [0, 1, 2]
  else [0, 1]

/-- get_correct_answer (evaluation.py lines 163-168, export_marks.py lines
63-67): the first non-missing probed answer column, stringified and
stripped. The probe result lives in QRow.ans. -/
def get_correct_answer (row : QRow) : Option String :=
  row.ans.map pyStrip

/-- Lookup df[df["QuestionID"].astype(str) == qid].iloc[0]: the first bank
row whose stringified QuestionID equals the given string. -/
def firstMatch (df : List QRow) (qid : String) : Option QRow :=
  df.find? (fun row => row.qid == qid)

/-- evaluation.py calc_mcq (lines 171-191). The df-empty early return is
subsumed by the fold over responses. -/
def calc_mcq (df : List QRow) (responses : List Response) : Nat :=
  responses.foldl
    (fun total r =>
      let ans := pyStrip r.resp
      match firstMatch df r.qid with
      | none => total
      | some row =>
        if pyLower row.qtype == "mcq" then
          match get_correct_answer row with
          | none => total
          | some correct => if ans == correct then total + 1 else total
        else total)
    0

/-- evaluation.py calc_likert (lines 194-219): the value is parsed first
(unparseable values are skipped), then the question is looked up. -/
def calc_likert (df : List QRow) (responses : List Response) : Int :=
  responses.foldl
    (fun total r =>
      match pyInt r.resp with
      | none => total
      | some val =>
        match firstMatch df r.qid with
        | none => total
        | some row =>
          if pyLower row.qtype == "likert" then
            total + max 0 (min 4 (val - 1))
          else total)
    0

/-- export_marks.py likert_to_score (lines 51-57), applied to an already
parsed integer. -/
def likert_to_score (v : Int) : Int :=
  if v = 1 then 0
  else if v = 2 then 1
  else if v = 3 then 2
  else if v = 4 ∨ v = 5 then 3
  else 0

/-- export_marks.py calc_mcq (lines 70-84). Note `if correct and ans ==
correct`: a correct answer that is empty after stripping is falsy and never
matches. The Type check compares the raw tag exactly against "mcq". -/
def calc_mcq_export (df : List QRow) (responses : List Response) : Nat :=
  responses.foldl
    (fun score r =>
      let ans := pyStrip r.resp
      match firstMatch df r.qid with
      | none => score
      | some row =>
        if row.qtype == "mcq" then
          match get_correct_answer row with
          | none => score
          | some correct =>
            if correct ≠ "" ∧ ans == correct then score + 1 else score
        else score)
    0

/-- export_marks.py calc_likert (lines 90-102): likert_to_score calls
int(v) with no handler, so an unparseable value of a matched likert
question raises; the raise is modelled as none. -/
def calc_likert_export (df : List QRow) (responses : List Response) : Option Int :=
  responses.foldlM
    (fun total r =>
      match firstMatch df r.qid with
      | none => some total
      | some row =>
        if pyLower row.qtype == "likert" then
          match pyInt r.resp with
          | none => none
          | some v => some (total + likert_to_score v)
        else some total)
    0

/-!
Document store model (Firestore collection "student_responses") and the
Save Evaluation flow of evaluation.py (lines 280-445).
-/

/-- The Evaluation sub-record of a student document. Absent fields are
none / the empty map. -/
structure EvalBlock where
  text_marks : List (String × Int)
  text_total : Option Int
  mcq_total : Option Int
  likert_total : Option Int
  final_total : Option Int
  grand_total : Option Int
deriving DecidableEq

/-- The Evaluation map with no fields, i.e. Python {}. -/
def emptyEval : EvalBlock := ⟨[], none, none, none, none, none⟩

/-- One document of the student_responses collection. -/
structure Doc where
  docId : String
  roll : String
  sectionName : String
  responses : List Response
  evaluation : Option EvalBlock
deriving DecidableEq

/-- The document store: the current contents of the collection. -/
abbrev Store := List Doc

/-- Fetch a document by id. -/
def getDoc (store : Store) (docId : String) : Option Doc :=
  store.find? (fun d => d.docId == docId)

/-- snap.to_dict() or {}: a missing document reads as an empty record. -/
def docData (store : Store) (docId : String) : Doc :=
  (getDoc store docId).getD ⟨docId, "", "", [], none⟩

/-- Apply an update to the document with the given id (a Firestore
set(..., merge=True) targets one document id). -/
def updateDoc (store : Store) (docId : String) (f : Doc → Doc) : Store :=
  store.map (fun d => if d.docId == docId then f d else d)

/-- Lookup in a text_marks map. -/
def lookupMark (m : List (String × Int)) (q : String) : Option Int :=
  (m.find? (fun p => p.1 == q)).map Prod.snd

/-- Firestore deep merge of the nested text_marks map: fields of the
written map win, fields only in the stored map survive. -/
def mergeTextMarks (old new : List (String × Int)) : List (String × Int) :=
  new ++ old.filter (fun p => (lookupMark new p.1).isNone)

/-- The merge=True write of the selected document's full Evaluation block
(evaluation.py lines 420-432). -/
def applyFullEvalMerge (marks : List (String × Int)) (tt mcq lik fin g : Int)
    (d : Doc) : Doc :=
  let old := d.evaluation.getD emptyEval
  let e : EvalBlock :=
    ⟨mergeTextMarks old.text_marks marks, some tt, some mcq, some lik,
     some fin, some g⟩
  { d with evaluation := some e }

/-- The merge=True write of {"Evaluation": {"grand_total": g}} to a sibling
document (evaluation.py lines 438-441). -/
def applyGrandMerge (g : Int) (d : Doc) : Doc :=
  let old := d.evaluation.getD emptyEval
  { d with evaluation := some { old with grand_total := some g } }

/-- evaluation.py lines 89-92. -/
def MANUAL_TESTS : List String :=
  ["Aptitude Test", "Communication Skills - Descriptive"]

/-- evaluation.py lines 84-87. -/
def AUTO_TESTS : List String :=
  ["Adaptability & Learning", "Communication Skills - Objective"]

/-- The saved text_marks of a document, {str(k): int(v) for ...} over
(Evaluation or {}).get("text_marks") or {} (evaluation.py lines 327-330). -/
def saved_text_marks (store : Store) (docId : String) : List (String × Int) :=
  match (docData store docId).evaluation with
  | none => []
  | some e => e.text_marks

/-- int((Evaluation or {}).get("text_total", 0) or 0) of a document
(evaluation.py lines 399-401). -/
def storedTextTotal (store : Store) (docId : String) : Int :=
  match (docData store docId).evaluation with
  | none => 0
  | some e => e.text_total.getD 0

/-- The short (free-text) rows of a loaded bank, df[df["Type"] == "short"]
(evaluation.py line 340; the bank's Type tags were stripped and lowered at
load time). -/
def short_rows (df : List QRow) : List QRow :=
  df.filter (fun row => row.qtype == "short")

/-- default_mark for one question: the previously saved mark, clamped to 0
when outside the question's scale (evaluation.py lines 360-362). -/
def default_mark_for (saved : List (String × Int)) (qid : String) : Int :=
  let d := (lookupMark saved qid).getD 0
  if d ∈ get_text_scale qid then d else 0

/-- default_index = scale.index(default_mark) (evaluation.py lines
363-366; the ValueError branch is unreachable because the default mark is
already clamped into the scale). -/
def default_index_for (saved : List (String × Int)) (qid : String) : Nat :=
  (get_text_scale qid).indexOf (default_mark_for saved qid)

/-- The st.radio widget: it can only yield one of the offered options. A
choice of none means the faculty left the preselected option; a chosen
index outside the option list is impossible in the UI and falls back to
the preselected option. -/
def st_radio (options : List Int) (defaultIndex : Nat) (choice : Option Nat) : Int :=
  match choice with
  | some i => options.getD i (options.getD defaultIndex 0)
  | none => options.getD defaultIndex 0

/-- marks_given: the mark picked in the radio widget of each short
question, keyed by QuestionID (evaluation.py lines 342-381). -/
def marks_given (df : List QRow) (saved : List (String × Int))
    (choice : String → Option Nat) : List (String × Int) :=
  (short_rows df).map (fun row =>
    (row.qid,
     st_radio (get_text_scale row.qid) (default_index_for saved row.qid)
       (choice row.qid)))

/-- text_total_current: the running sum of the picked marks (evaluation.py
line 382). -/
def text_total_current (df : List QRow) (saved : List (String × Int))
    (choice : String → Option Nat) : Int :=
  ((marks_given df saved choice).map Prod.snd).sum

/-- The mcq and likert scores of one (section, doc_id) entry, computed from
that document's responses and its section's bank
(compute_auto_scores_for_roll, evaluation.py lines 236-251; doc_scores is
keyed by the Firestore document id, which is unique, so the dictionary
lookup returns the scores computed for the entry itself). -/
def doc_auto (banks : String → List QRow) (store : Store)
    (sd : String × String) : Nat × Int :=
  let df := banks sd.1
  let d := docData store sd.2
  (calc_mcq df d.responses, calc_likert df d.responses)

/-- mcq_sum_all of compute_auto_scores_for_roll. -/
def mcq_sum_all (banks : String → List QRow) (store : Store)
    (docs : List (String × String)) : Nat :=
  (docs.map (fun sd => (doc_auto banks store sd).1)).sum

/-- likert_sum_all of compute_auto_scores_for_roll. -/
def likert_sum_all (banks : String → List QRow) (store : Store)
    (docs : List (String × String)) : Int :=
  (docs.map (fun sd => (doc_auto banks store sd).2)).sum

/-- The inputs of one Save Evaluation interaction: the loaded banks, the
student's (section, doc_id) list, the selected manual test and its
document, and the faculty's radio choices. -/
structure SaveCtx where
  banks : String → List QRow
  docs : List (String × String)
  selected_test : String
  selected_doc_id : String
  choice : String → Option Nat

/-- The final_total the grand-total loop computes for one document: its
fresh auto scores plus a text component - the current marking-form total
for documents of the selected section, the last-persisted text_total
otherwise (evaluation.py lines 393-403, the loop body). -/
def docContribution (ctx : SaveCtx) (store : Store) (ttc : Int)
    (sd : String × String) : Int :=
  let ms := doc_auto ctx.banks store sd
  let text :=
    if sd.1 == ctx.selected_test then ttc else storedTextTotal store sd.2
  (ms.1 : Int) + ms.2 + text

/-- The GRAND TOTAL loop (evaluation.py lines 391-404): grand_total starts
at 0 and accumulates each document's contribution. -/
def grand_total_calc (ctx : SaveCtx) (store : Store) (ttc : Int) : Int :=
  ctx.docs.foldl (fun g sd => g + docContribution ctx store ttc sd) 0

/-- Everything the save button handler computes from its read of the store
before writing (evaluation.py lines 389-418). -/
structure SaveComputation where
  marks : List (String × Int)
  ttc : Int
  mcq0 : Nat
  likert0 : Int
  fin : Int
  grand : Int
deriving DecidableEq

/-- The read-and-compute phase of a save. -/
def computeSave (ctx : SaveCtx) (store : Store) : SaveComputation :=
  let df := ctx.banks ctx.selected_test
  let saved := saved_text_marks store ctx.selected_doc_id
  let marks := marks_given df saved ctx.choice
  let ttc := text_total_current df saved ctx.choice
  let ms := doc_auto ctx.banks store (ctx.selected_test, ctx.selected_doc_id)
  let fin := (ms.1 : Int) + ms.2 + ttc
  let g := grand_total_calc ctx store ttc
  ⟨marks, ttc, ms.1, ms.2, fin, g⟩

/-- The propagation loop (evaluation.py lines 434-441): write grand_total
to every other document of the student. -/
def propagateGrand (g : Int) (selId : String) (docs : List (String × String))
    (st : Store) : Store :=
  docs.foldl
    (fun st sd =>
      if sd.2 == selId then st else updateDoc st sd.2 (applyGrandMerge g))
    st

/-- The write phase of a save, applied to the store as it is when the
writes land (evaluation.py lines 420-441). -/
def applySave (ctx : SaveCtx) (c : SaveComputation) (store : Store) : Store :=
  let st1 := updateDoc store ctx.selected_doc_id
    (applyFullEvalMerge c.marks c.ttc (c.mcq0 : Int) c.likert0 c.fin c.grand)
  propagateGrand c.grand ctx.selected_doc_id ctx.docs st1

/-- One complete, uninterrupted Save Evaluation action. -/
def runSave (ctx : SaveCtx) (store : Store) : Store :=
  applySave ctx (computeSave ctx store) store

/-- The grand total displayed by the auto-only early branch
(evaluation.py lines 301-307): mcq_all + likert_all. -/
def auto_grand (banks : String → List QRow) (store : Store)
    (docs : List (String × String)) : Int :=
  (mcq_sum_all banks store docs : Int) + likert_sum_all banks store docs

/-- The page flow after a student is selected (evaluation.py lines
289-445): when the student has no document of a manual test section, the
auto scores and grand total are displayed and the script stops with no
write; when the selected test's question bank is empty, the page reports
an error and stops (lines 332-335) - no grand total is computed and
nothing is written, so the displayed-total component is vacuously 0 on
that path; otherwise the marking UI runs and a press of the save button
runs the save. The result is the displayed grand total and the store
after the interaction. -/
def runPage (ctx : SaveCtx) (store : Store) (savePressed : Bool) : Int × Store :=
  if (ctx.docs.filter (fun sd => sd.1 ∈ MANUAL_TESTS)).isEmpty then
    (auto_grand ctx.banks store ctx.docs, store)
  else if (ctx.banks ctx.selected_test).isEmpty then
    (0, store)
  else
    let c := computeSave ctx store
    (c.grand, if savePressed then applySave ctx c store else store)

/-- The grand_total field stored on a document, read back from the store. -/
def storedGrand (store : Store) (docId : String) : Option Int :=
  (docData store docId).evaluation.bind (fun e => e.grand_total)

/-- The final_total field stored on a document, 0 when absent. -/
def storedFinal (store : Store) (docId : String) : Int :=
  ((docData store docId).evaluation.bind (fun e => e.final_total)).getD 0

/-- The sum of last-persisted final totals across all documents of a roll,
computed independently from the store's current state. -/
def sumFinals (store : Store) (roll : String) : Int :=
  ((store.filter (fun d => d.roll == roll)).map
    (fun d => (d.evaluation.bind (fun e => e.final_total)).getD 0)).sum

/-- A document's final total recomputed from the store's current state the
way the program itself computes a contribution: fresh mcq and likert
scores plus the stored text_total. -/
def recomputeFinal (banks : String → List QRow) (store : Store)
    (sd : String × String) : Int :=
  let ms := doc_auto banks store sd
  (ms.1 : Int) + ms.2 + storedTextTotal store sd.2

/-- Sum of recomputed final totals across the student's documents. -/
def sumRecomputeFinal (banks : String → List QRow) (store : Store)
    (docs : List (String × String)) : Int :=
  (docs.map (recomputeFinal banks store)).sum

/-- The frame of an Evaluation block: every field except grand_total, as
read back from the store (absent block and absent fields read as empty). -/
def evalFrame (e : Option EvalBlock) :
    List (String × Int) × Option Int × Option Int × Option Int × Option Int :=
  match e with
  | none => ([], none, none, none, none)
  | some b =>
    (b.text_marks, b.text_total, b.mcq_total, b.likert_total, b.final_total)

/-!
Specification-side definitions, written from the words of the claims, to
be compared against the program's own functions.
-/

/-- Modelled from the spec (claim C2 step 3-4): the grand total as the
claim describes it - the freshly recomputed final total of the selected
test plus, for every other document of the student, its last-persisted
final_total with fallback 0 when absent or unevaluated. -/
def grand_total_claimed (ctx : SaveCtx) (store : Store) : Int :=
  (computeSave ctx store).fin +
    ((ctx.docs.filter (fun sd => sd.2 ≠ ctx.selected_doc_id)).map
      (fun sd => storedFinal store sd.2)).sum

/-- The amended description of the grand total: sum over every one of the
student's documents of its fresh mcq and likert scores plus its text
component (the just-entered marking total for documents of the selected
section, the last-persisted text_total otherwise). -/
def grand_total_amended (ctx : SaveCtx) (store : Store) (ttc : Int) : Int :=
  (ctx.docs.map (fun sd =>
    ((doc_auto ctx.banks store sd).1 : Int) + (doc_auto ctx.banks store sd).2 +
      (if sd.1 = ctx.selected_test then ttc
       else storedTextTotal store sd.2))).sum

/-- A response that exactly matches the answer key as evaluation.py tests
it: the question is found, its lowered type tag is mcq, a correct answer
is present, and the stripped submitted value equals it. -/
def mcqExactMatch (df : List QRow) (r : Response) : Bool :=
  match firstMatch df r.qid with
  | none => false
  | some row =>
    pyLower row.qtype == "mcq" &&
      (match get_correct_answer row with
       | none => false
       | some c => pyStrip r.resp == c)

/-- The exact-match test of export_marks.py: raw type tag compared to mcq
and, because of `if correct and ...`, a correct answer that is non-empty
after stripping. -/
def mcqExactMatchExport (df : List QRow) (r : Response) : Bool :=
  match firstMatch df r.qid with
  | none => false
  | some row =>
    row.qtype == "mcq" &&
      (match get_correct_answer row with
       | none => false
       | some c => !(c == "") && (pyStrip r.resp == c))

/-- Whether a response's question is found and carries likert type, as
evaluation.py tests it. -/
def isLikertMatch (df : List QRow) (q : String) : Bool :=
  match firstMatch df q with
  | none => false
  | some row => pyLower row.qtype == "likert"

/-- The contribution of one response inside evaluation.py's calc_likert
loop. -/
def likertContrib (df : List QRow) (r : Response) : Int :=
  match pyInt r.resp with
  | none => 0
  | some val =>
    match firstMatch df r.qid with
    | none => 0
    | some row =>
      if pyLower row.qtype == "likert" then max 0 (min 4 (val - 1)) else 0

/-- The contribution of one response inside evaluation.py's calc_mcq
loop. -/
def mcqContrib (df : List QRow) (r : Response) : Nat :=
  match firstMatch df r.qid with
  | none => 0
  | some row =>
    if pyLower row.qtype == "mcq" then
      match get_correct_answer row with
      | none => 0
      | some correct => if pyStrip r.resp == correct then 1 else 0
    else 0

/-- The contribution of one response inside export_marks.py's calc_mcq
loop. -/
def mcqContribExport (df : List QRow) (r : Response) : Nat :=
  match firstMatch df r.qid with
  | none => 0
  | some row =>
    if row.qtype == "mcq" then
      match get_correct_answer row with
      | none => 0
      | some correct =>
        if correct ≠ "" ∧ pyStrip r.resp == correct then 1 else 0
    else 0

/-- Shared scale table keyed by the parsed ordinal, used by the claim-side
and amended-side scale rules. -/
def scaleOfParse (p : Option Int) : List Int :=
  match p with
  | none => [0, 1]
  | some n =>
    if n ∈ FOUR_MARK_QIDS then [0, 1, 2, 3]
    else if n ∈ THREE_MARK_QIDS then [0, 1, 2]
    else [0, 1]

/-- Modelled from the spec (claim C8): the ordinal is recovered by
stripping the leading run of non-digit characters and parsing the
remainder as an integer; unparseable identifiers default to the narrowest
scale. -/
def scale_claimed (qid : String) : List Int :=
  let body := (pyStrip qid).toList.dropWhile (fun c => !c.isDigit)
  scaleOfParse (pyInt (String.mk body))

/-- The amended scale rule: the only prefix ever stripped is a single
leading q or Q; the remainder must parse as an integer, otherwise the
narrowest scale applies. -/
def scale_amended (qid : String) : List Int :=
  match (pyStrip qid).toList with
  | [] => scaleOfParse (pyInt (pyStrip qid))
  | c :: rest =>
    if c = 'q' ∨ c = 'Q' then scaleOfParse (pyInt (String.mk rest))
    else scaleOfParse (pyInt (pyStrip qid))

/-!
Concrete data for counterexamples, failing inputs and witnesses.
-/

/-- A bank holding one likert question. -/
def likertBank : List QRow := [⟨"1", "likert", none⟩]

/-- One response answering that likert question with raw value 5. -/
def likertRespFive : List Response := [⟨"1", "5"⟩]

/-- A bank whose single mcq question has a whitespace answer cell: the
probed correct answer strips to the empty string. -/
def blankAnswerBank : List QRow := [⟨"1", "mcq", some " "⟩]

/-- One response whose submitted value also strips to the empty string. -/
def blankResp : List Response := [⟨"1", " "⟩]

/-- C1 scenario: the student has a manual-test document A (no questions to
mark) and an auto-test document B whose likert response freshly scores 4
but whose Evaluation block was never written. -/
def banksC1 : String → List QRow := fun s =>
  if s == "Aptitude Test" then [⟨"1", "short", none⟩]
  else if s == "Adaptability & Learning" then likertBank
  else []

/-- Document A of the C1 scenario. -/
def docA1 : Doc := ⟨"A", "R", "Aptitude Test", [], none⟩

/-- Document B of the C1 scenario. -/
def docB1 : Doc := ⟨"B", "R", "Adaptability & Learning", [⟨"1", "5"⟩], none⟩

/-- The C1 scenario store. -/
def storeC1 : Store := [docA1, docB1]

/-- The C1 scenario save: saving document A with no marks entered. -/
def ctxC1 : SaveCtx :=
  ⟨banksC1, [("Aptitude Test", "A"), ("Adaptability & Learning", "B")],
   "Aptitude Test", "A", fun _ => none⟩

/-- C2 scenario banks: the selected manual test has one free-text
question, so the page passes the empty-bank guard (evaluation.py lines
332-335) and reaches the marking UI and the save button. -/
def banksC2 : String → List QRow := fun s =>
  if s == "Aptitude Test" then [⟨"1", "short", none⟩] else []

/-- C2 scenario store: document A is unevaluated; sibling B carries a
persisted final_total of 100 (with text_total 0) whose fresh
recomputation from its responses and bank is 0. -/
def storeC2 : Store :=
  [⟨"A", "R", "Aptitude Test", [], none⟩,
   ⟨"B", "R", "Adaptability & Learning", [],
    some ⟨[], some 0, some 0, some 0, some 100, none⟩⟩]

/-- The C2 scenario save: saving document A with the preselected mark 0
for its one question. -/
def ctxC2 : SaveCtx :=
  ⟨banksC2, [("Aptitude Test", "A"), ("Adaptability & Learning", "B")],
   "Aptitude Test", "A", fun _ => none⟩

/-- C4 scenario banks: three one-mark free-text questions for the aptitude
test, four for the descriptive test. -/
def banksC4 : String → List QRow := fun s =>
  if s == "Aptitude Test" then
    [⟨"1", "short", none⟩, ⟨"2", "short", none⟩, ⟨"3", "short", none⟩]
  else if s == "Communication Skills - Descriptive" then
    [⟨"1", "short", none⟩, ⟨"2", "short", none⟩, ⟨"3", "short", none⟩,
     ⟨"4", "short", none⟩]
  else []

/-- The C4 student's documents. -/
def docsC4 : List (String × String) :=
  [("Aptitude Test", "A"), ("Communication Skills - Descriptive", "C")]

/-- The C4 baseline store: both documents unevaluated. -/
def storeC4 : Store :=
  [⟨"A", "R1", "Aptitude Test", [], none⟩,
   ⟨"C", "R1", "Communication Skills - Descriptive", [], none⟩]

/-- Session one of the C4 race: saving Test-A with every mark set to 1,
final total 3. -/
def ctxA4 : SaveCtx := ⟨banksC4, docsC4, "Aptitude Test", "A", fun _ => some 1⟩

/-- Session two of the C4 race: saving Test-C with every mark set to 1,
final total 4. -/
def ctxC4 : SaveCtx :=
  ⟨banksC4, docsC4, "Communication Skills - Descriptive", "C", fun _ => some 1⟩

/-- The store after the unserialized interleaving: both sessions read the
baseline store, then their writes land in order. -/
def racedStore : Store :=
  applySave ctxC4 (computeSave ctxC4 storeC4)
    (applySave ctxA4 (computeSave ctxA4 storeC4) storeC4)

/-- The fields of a document outside its Evaluation block. -/
def topFields (d : Doc) : String × String × String × List Response :=
  (d.docId, d.roll, d.sectionName, d.responses)

/-- A duplicate bank row sharing the QuestionID of blankAnswerBank's row. -/
def dupRow : QRow := ⟨"1", "mcq", some "B"⟩

/-- A student whose only document belongs to an auto-evaluated section. -/
def ctxAuto : SaveCtx :=
  ⟨banksC1, [("Adaptability & Learning", "B")], "", "", fun _ => none⟩

/-!
General helper lemmas.
-/

theorem foldl_add_map_sum {α M : Type _} [AddMonoid M] (f : α → M)
    (l : List α) : ∀ a : M, l.foldl (fun g x => g + f x) a = a + (l.map f).sum := by
  induction l with
  | nil => intro a; simp
  | cons x t ih => intro a; simp [ih, add_assoc]

theorem sum_map_ite_one {α : Type _} (p : α → Bool) (l : List α) :
    (l.map (fun x => if p x then (1 : Nat) else 0)).sum = (l.filter p).length := by
  induction l with
  | nil => rfl
  | cons x t ih => by_cases h : p x <;> simp [h, ih, Nat.add_comm]

theorem getD_mem_of_lt {l : List Int} :
    ∀ {i : Nat}, i < l.length → ∀ d : Int, l.getD i d ∈ l := by
  induction l with
  | nil => intro i h d; simp at h
  | cons x t ih =>
    intro i h d
    cases i with
    | zero => simp
    | succ n =>
      simp only [List.getD_cons_succ]
      exact List.mem_cons_of_mem x (ih (by simpa using h) d)

theorem getD_of_le {l : List Int} :
    ∀ {i : Nat}, l.length ≤ i → ∀ d : Int, l.getD i d = d := by
  induction l with
  | nil => intro i h d; simp [List.getD]
  | cons x t ih =>
    intro i h d
    cases i with
    | zero => simp at h
    | succ n => simpa using ih (by simpa using h) d

/-!
Lemmas about answer-key lookup and the objective scorers.
-/

theorem firstMatch_append_dup (df : List QRow) (row : QRow)
    (h : ∃ r ∈ df, r.qid = row.qid) (q : String) :
    firstMatch (df ++ [row]) q = firstMatch df q := by
  unfold firstMatch
  rw [List.find?_append]
  cases hf : df.find? (fun r => r.qid == q) with
  | some r => rfl
  | none =>
    obtain ⟨r0, hr0, hq0⟩ := h
    have hall := List.find?_eq_none.mp hf
    have hrow : ¬ (row.qid == q) = true := by
      intro hrq
      exact hall r0 hr0 (by rw [hq0]; exact hrq)
    simp [List.find?, hrow]

theorem calc_mcq_eq_sum (df : List QRow) (rs : List Response) :
    calc_mcq df rs = (rs.map (mcqContrib df)).sum := by
  have h1 : calc_mcq df rs = rs.foldl (fun t r => t + mcqContrib df r) 0 := by
    unfold calc_mcq
    congr 1
    funext t r
    unfold mcqContrib
    cases hm : firstMatch df r.qid with
    | none => simp [hm]
    | some row =>
      by_cases h1 : (pyLower row.qtype == "mcq") = true
      · cases hc : get_correct_answer row with
        | none => simp [hm, hc, h1]
        | some c =>
          by_cases h2 : (pyStrip r.resp == c) = true <;> simp [hm, hc, h1, h2]
      · simp [hm, h1]
  rw [h1, foldl_add_map_sum (mcqContrib df) rs 0, zero_add]

theorem calc_mcq_export_eq_sum (df : List QRow) (rs : List Response) :
    calc_mcq_export df rs = (rs.map (mcqContribExport df)).sum := by
  have h1 : calc_mcq_export df rs
      = rs.foldl (fun t r => t + mcqContribExport df r) 0 := by
    unfold calc_mcq_export
    congr 1
    funext t r
    unfold mcqContribExport
    cases hm : firstMatch df r.qid with
    | none => simp [hm]
    | some row =>
      by_cases h1 : (row.qtype == "mcq") = true
      · cases hc : get_correct_answer row with
        | none => simp [hm, hc, h1]
        | some c =>
          simp only [hm, hc, h1]
          split_ifs <;> simp
      · simp [hm, h1]
  rw [h1, foldl_add_map_sum (mcqContribExport df) rs 0, zero_add]

theorem calc_likert_eq_sum (df : List QRow) (rs : List Response) :
    calc_likert df rs = (rs.map (likertContrib df)).sum := by
  have h1 : calc_likert df rs = rs.foldl (fun t r => t + likertContrib df r) 0 := by
    unfold calc_likert
    congr 1
    funext t r
    unfold likertContrib
    cases hv : pyInt r.resp with
    | none => simp [hv]
    | some v =>
      cases hm : firstMatch df r.qid with
      | none => simp [hv, hm]
      | some row =>
        by_cases h1 : (pyLower row.qtype == "likert") = true <;> simp [hv, hm, h1]
  rw [h1, foldl_add_map_sum (likertContrib df) rs 0, zero_add]

theorem mcqContrib_eq_ite (df : List QRow) (r : Response) :
    mcqContrib df r = if mcqExactMatch df r then 1 else 0 := by
  unfold mcqContrib mcqExactMatch
  cases hm : firstMatch df r.qid with
  | none => rfl
  | some row =>
    by_cases h1 : (pyLower row.qtype == "mcq") = true
    · cases hc : get_correct_answer row with
      | none => simp [hc, h1]
      | some c =>
        by_cases h2 : (pyStrip r.resp == c) = true <;> simp [hc, h1, h2]
    · simp [h1]

theorem mcqContribExport_eq_ite (df : List QRow) (r : Response) :
    mcqContribExport df r = if mcqExactMatchExport df r then 1 else 0 := by
  unfold mcqContribExport mcqExactMatchExport
  cases hm : firstMatch df r.qid with
  | none => rfl
  | some row =>
    by_cases h1 : (row.qtype == "mcq") = true
    · cases hc : get_correct_answer row with
      | none => simp [hc, h1]
      | some c =>
        by_cases h2 : c = ""
        · simp [hc, h1, h2]
        · have hcb : (c == "") = false := by simp [h2]
          by_cases h3 : (pyStrip r.resp == c) = true <;>
            simp [hc, h1, h2, hcb, h3]
    · simp [h1]

/-!
Lemmas about the document store and the write phase of a save.
-/

theorem ite_bool_true {α : Type _} {b : Bool} (h : b = true) (x y : α) :
    (if b then x else y) = x := by subst h; rfl

theorem ite_bool_false {α : Type _} {b : Bool} (h : b = false) (x y : α) :
    (if b then x else y) = y := by subst h; rfl

theorem getDoc_updateDoc (st : Store) (id : String) (f : Doc → Doc)
    (hf : ∀ d, (f d).docId = d.docId) (q : String) :
    getDoc (updateDoc st id f) q
      = (getDoc st q).map (fun d => if d.docId == id then f d else d) := by
  unfold getDoc updateDoc
  rw [List.find?_map]
  have hp : ((fun d => d.docId == q) ∘ (fun d => if d.docId == id then f d else d))
      = fun d : Doc => d.docId == q := by
    funext d
    by_cases h : (d.docId == id) = true <;> simp [Function.comp, h, hf d]
  rw [hp]

theorem getDoc_found_id (st : Store) (q : String) (d : Doc)
    (hg : getDoc st q = some d) : d.docId = q := by
  unfold getDoc at hg
  have hpd := List.find?_some hg
  exact beq_iff_eq.mp hpd

theorem getDoc_updateDoc_ne (st : Store) (id : String) (f : Doc → Doc)
    (hf : ∀ d, (f d).docId = d.docId) (q : String) (hq : q ≠ id) :
    getDoc (updateDoc st id f) q = getDoc st q := by
  rw [getDoc_updateDoc st id f hf q]
  cases hg : getDoc st q with
  | none => rfl
  | some d =>
    have hdq : d.docId = q := getDoc_found_id st q d hg
    have hb : (d.docId == id) = false := by
      rw [hdq]
      exact beq_eq_false_iff_ne.mpr hq
    rw [Option.map_some', ite_bool_false hb]

theorem getDoc_updateDoc_self (st : Store) (id : String) (f : Doc → Doc)
    (hf : ∀ d, (f d).docId = d.docId) :
    getDoc (updateDoc st id f) id = (getDoc st id).map f := by
  rw [getDoc_updateDoc st id f hf id]
  cases hg : getDoc st id with
  | none => rfl
  | some d =>
    have hdq : d.docId = id := getDoc_found_id st id d hg
    have hb : (d.docId == id) = true := by rw [hdq]; exact beq_self_eq_true id
    rw [Option.map_some', Option.map_some', ite_bool_true hb]

theorem isSome_getDoc_updateDoc (st : Store) (id : String) (f : Doc → Doc)
    (hf : ∀ d, (f d).docId = d.docId) (q : String) :
    (getDoc (updateDoc st id f) q).isSome = (getDoc st q).isSome := by
  rw [getDoc_updateDoc st id f hf q]
  cases getDoc st q <;> rfl

theorem applyGrandMerge_docId (g : Int) (d : Doc) :
    (applyGrandMerge g d).docId = d.docId := rfl

theorem applyFullEvalMerge_docId (marks : List (String × Int))
    (tt mcq lik fin g : Int) (d : Doc) :
    (applyFullEvalMerge marks tt mcq lik fin g d).docId = d.docId := rfl

theorem topFields_applyGrandMerge (g : Int) (d : Doc) :
    topFields (applyGrandMerge g d) = topFields d := rfl

theorem topFields_applyFullEvalMerge (marks : List (String × Int))
    (tt mcq lik fin g : Int) (d : Doc) :
    topFields (applyFullEvalMerge marks tt mcq lik fin g d) = topFields d := rfl

theorem evalFrame_applyGrandMerge (g : Int) (d : Doc) :
    evalFrame (applyGrandMerge g d).evaluation = evalFrame d.evaluation := by
  rcases d with ⟨i, ro, se, rs, e⟩
  cases e <;> rfl

theorem topFields_updateDoc (st : Store) (id : String) (f : Doc → Doc)
    (hf : ∀ d, (f d).docId = d.docId)
    (ht : ∀ d, topFields (f d) = topFields d) (q : String) :
    topFields (docData (updateDoc st id f) q) = topFields (docData st q) := by
  unfold docData
  rw [getDoc_updateDoc st id f hf q]
  cases getDoc st q with
  | none => rfl
  | some d =>
    rw [Option.map_some', Option.getD_some, Option.getD_some]
    by_cases hb : (d.docId == id) = true
    · rw [ite_bool_true hb, ht d]
    · have hb2 : (d.docId == id) = false := by
        revert hb; cases (d.docId == id) <;> simp
      rw [ite_bool_false hb2]

theorem frame_updateGrand (st : Store) (id : String) (g : Int) (q : String) :
    evalFrame ((docData (updateDoc st id (applyGrandMerge g)) q).evaluation)
      = evalFrame ((docData st q).evaluation) := by
  unfold docData
  rw [getDoc_updateDoc st id (applyGrandMerge g) (fun d => rfl) q]
  cases getDoc st q with
  | none => rfl
  | some d =>
    rw [Option.map_some', Option.getD_some, Option.getD_some]
    by_cases hb : (d.docId == id) = true
    · rw [ite_bool_true hb, evalFrame_applyGrandMerge]
    · have hb2 : (d.docId == id) = false := by
        revert hb; cases (d.docId == id) <;> simp
      rw [ite_bool_false hb2]

theorem storedGrand_congr_getDoc (st1 st2 : Store) (q : String)
    (h : getDoc st1 q = getDoc st2 q) :
    storedGrand st1 q = storedGrand st2 q := by
  unfold storedGrand docData
  rw [h]

theorem isSome_of_storedGrand (st : Store) (q : String) (g : Int)
    (h : storedGrand st q = some g) : (getDoc st q).isSome := by
  unfold storedGrand docData at h
  cases hg : getDoc st q with
  | none => rw [hg] at h; simp at h
  | some d => rfl

theorem storedGrand_updateGrand_self (st : Store) (id : String) (g : Int)
    (hp : (getDoc st id).isSome) :
    storedGrand (updateDoc st id (applyGrandMerge g)) id = some g := by
  unfold storedGrand docData
  rw [getDoc_updateDoc_self st id (applyGrandMerge g) (fun d => rfl)]
  cases hg : getDoc st id with
  | none => rw [hg] at hp; simp at hp
  | some d =>
    rcases d with ⟨i, ro, se, rs, e⟩
    cases e <;> rfl

theorem storedGrand_updateDoc_ne (st : Store) (id : String) (f : Doc → Doc)
    (hf : ∀ d, (f d).docId = d.docId) (q : String) (hq : q ≠ id) :
    storedGrand (updateDoc st id f) q = storedGrand st q :=
  storedGrand_congr_getDoc _ _ q (getDoc_updateDoc_ne st id f hf q hq)

theorem storedGrand_updateGrand_keep (st : Store) (id : String) (g : Int)
    (q : String) (h : storedGrand st q = some g) :
    storedGrand (updateDoc st id (applyGrandMerge g)) q = some g := by
  by_cases hq : q = id
  · subst hq
    exact storedGrand_updateGrand_self st q g (isSome_of_storedGrand st q g h)
  · rw [storedGrand_updateDoc_ne st id (applyGrandMerge g) (fun d => rfl) q hq]
    exact h

theorem propagateGrand_cons (g : Int) (selId : String) (sd : String × String)
    (tl : List (String × String)) (st : Store) :
    propagateGrand g selId (sd :: tl) st
      = propagateGrand g selId tl
          (if sd.2 == selId then st else updateDoc st sd.2 (applyGrandMerge g)) := rfl

theorem propagate_frame (g : Int) (selId : String)
    (docs : List (String × String)) :
    ∀ (st : Store) (q : String),
      evalFrame ((docData (propagateGrand g selId docs st) q).evaluation)
        = evalFrame ((docData st q).evaluation) := by
  induction docs with
  | nil => intro st q; rfl
  | cons sd tl ih =>
    intro st q
    rw [propagateGrand_cons, ih]
    cases hb : (sd.2 == selId) with
    | true => rw [if_pos rfl]
    | false => rw [if_neg Bool.false_ne_true]; exact frame_updateGrand st sd.2 g q

theorem propagate_topFields (g : Int) (selId : String)
    (docs : List (String × String)) :
    ∀ (st : Store) (q : String),
      topFields (docData (propagateGrand g selId docs st) q)
        = topFields (docData st q) := by
  induction docs with
  | nil => intro st q; rfl
  | cons sd tl ih =>
    intro st q
    rw [propagateGrand_cons, ih]
    cases hb : (sd.2 == selId) with
    | true => rw [if_pos rfl]
    | false =>
      rw [if_neg Bool.false_ne_true]
      exact topFields_updateDoc st sd.2 (applyGrandMerge g) (fun d => rfl)
        (fun d => rfl) q

theorem propagate_getDoc_selId (g : Int) (selId : String)
    (docs : List (String × String)) :
    ∀ st : Store, getDoc (propagateGrand g selId docs st) selId = getDoc st selId := by
  induction docs with
  | nil => intro st; rfl
  | cons sd tl ih =>
    intro st
    rw [propagateGrand_cons, ih]
    cases hb : (sd.2 == selId) with
    | true => rw [if_pos rfl]
    | false =>
      rw [if_neg Bool.false_ne_true]
      exact getDoc_updateDoc_ne st sd.2 (applyGrandMerge g) (fun d => rfl) selId
        (fun he => by rw [he, beq_self_eq_true] at hb; exact absurd hb (by simp))

theorem propagate_keeps_grand (g : Int) (selId : String)
    (docs : List (String × String)) :
    ∀ (st : Store) (q : String), storedGrand st q = some g →
      storedGrand (propagateGrand g selId docs st) q = some g := by
  induction docs with
  | nil => intro st q h; exact h
  | cons sd tl ih =>
    intro st q h
    rw [propagateGrand_cons]
    apply ih
    cases hb : (sd.2 == selId) with
    | true => rw [if_pos rfl]; exact h
    | false =>
      rw [if_neg Bool.false_ne_true]
      exact storedGrand_updateGrand_keep st sd.2 g q h

theorem propagate_sets_grand (g : Int) (selId : String)
    (docs : List (String × String)) :
    ∀ (st : Store) (sd : String × String), sd ∈ docs → sd.2 ≠ selId →
      (getDoc st sd.2).isSome →
      storedGrand (propagateGrand g selId docs st) sd.2 = some g := by
  induction docs with
  | nil => intro st sd h; simp at h
  | cons hd tl ih =>
    intro st sd hmem hne hp
    rw [propagateGrand_cons]
    rcases List.mem_cons.mp hmem with heq | hmem2
    · subst heq
      have hb : (sd.2 == selId) = false := beq_eq_false_iff_ne.mpr hne
      rw [ite_bool_false hb]
      exact propagate_keeps_grand g selId tl _ sd.2
        (storedGrand_updateGrand_self st sd.2 g hp)
    · cases hb : (hd.2 == selId) with
      | true => rw [if_pos rfl]; exact ih st sd hmem2 hne hp
      | false =>
        rw [if_neg Bool.false_ne_true]
        exact ih _ sd hmem2 hne
          (by rw [isSome_getDoc_updateDoc st hd.2 (applyGrandMerge g) (fun d => rfl)]
              exact hp)

/-!
Lemmas about one complete save.
-/

theorem runSave_def (ctx : SaveCtx) (store : Store) :
    runSave ctx store
      = propagateGrand (computeSave ctx store).grand ctx.selected_doc_id ctx.docs
          (updateDoc store ctx.selected_doc_id
            (applyFullEvalMerge (computeSave ctx store).marks
              (computeSave ctx store).ttc ((computeSave ctx store).mcq0 : Int)
              (computeSave ctx store).likert0 (computeSave ctx store).fin
              (computeSave ctx store).grand)) := rfl

theorem storedTextTotal_eq_frame (st : Store) (q : String) :
    storedTextTotal st q = ((evalFrame ((docData st q).evaluation)).2.1).getD 0 := by
  unfold storedTextTotal evalFrame
  cases (docData st q).evaluation <;> rfl

theorem saved_text_marks_eq_frame (st : Store) (q : String) :
    saved_text_marks st q = (evalFrame ((docData st q).evaluation)).1 := by
  unfold saved_text_marks evalFrame
  cases (docData st q).evaluation <;> rfl

theorem evaluation_fullMerge_self (st : Store) (id : String)
    (marks : List (String × Int)) (tt mcq lik fin g : Int)
    (hp : (getDoc st id).isSome) :
    (docData (updateDoc st id (applyFullEvalMerge marks tt mcq lik fin g)) id).evaluation
      = some ⟨mergeTextMarks (saved_text_marks st id) marks, some tt, some mcq,
              some lik, some fin, some g⟩ := by
  unfold docData
  rw [getDoc_updateDoc_self st id (applyFullEvalMerge marks tt mcq lik fin g)
    (fun d => rfl)]
  cases hg : getDoc st id with
  | none => rw [hg] at hp; simp at hp
  | some d =>
    rw [Option.map_some', Option.getD_some]
    unfold applyFullEvalMerge saved_text_marks docData
    rw [hg, Option.getD_some]
    cases d.evaluation <;> rfl

theorem storedGrand_fullMerge_self (st : Store) (id : String)
    (marks : List (String × Int)) (tt mcq lik fin g : Int)
    (hp : (getDoc st id).isSome) :
    storedGrand (updateDoc st id (applyFullEvalMerge marks tt mcq lik fin g)) id
      = some g := by
  unfold storedGrand
  rw [evaluation_fullMerge_self st id marks tt mcq lik fin g hp]
  rfl

theorem storedTextTotal_fullMerge_self (st : Store) (id : String)
    (marks : List (String × Int)) (tt mcq lik fin g : Int)
    (hp : (getDoc st id).isSome) :
    storedTextTotal (updateDoc st id (applyFullEvalMerge marks tt mcq lik fin g)) id
      = tt := by
  unfold storedTextTotal
  rw [evaluation_fullMerge_self st id marks tt mcq lik fin g hp]
  rfl

theorem saved_text_marks_fullMerge_self (st : Store) (id : String)
    (marks : List (String × Int)) (tt mcq lik fin g : Int)
    (hp : (getDoc st id).isSome) :
    saved_text_marks (updateDoc st id (applyFullEvalMerge marks tt mcq lik fin g)) id
      = mergeTextMarks (saved_text_marks st id) marks := by
  unfold saved_text_marks
  rw [evaluation_fullMerge_self st id marks tt mcq lik fin g hp]
  rfl

theorem runSave_topFields (ctx : SaveCtx) (store : Store) (q : String) :
    topFields (docData (runSave ctx store) q) = topFields (docData store q) := by
  rw [runSave_def, propagate_topFields]
  exact topFields_updateDoc store ctx.selected_doc_id
    (applyFullEvalMerge (computeSave ctx store).marks (computeSave ctx store).ttc
      ((computeSave ctx store).mcq0 : Int) (computeSave ctx store).likert0
      (computeSave ctx store).fin (computeSave ctx store).grand)
    (fun d => rfl) (fun d => rfl) q

theorem runSave_responses (ctx : SaveCtx) (store : Store) (q : String) :
    (docData (runSave ctx store) q).responses = (docData store q).responses :=
  congrArg (fun t => t.2.2.2) (runSave_topFields ctx store q)

theorem doc_auto_runSave (banks : String → List QRow) (ctx : SaveCtx)
    (store : Store) (sd : String × String) :
    doc_auto banks (runSave ctx store) sd = doc_auto banks store sd := by
  unfold doc_auto
  simp only [runSave_responses]

theorem storedTextTotal_runSave_self (ctx : SaveCtx) (store : Store)
    (hp : (getDoc store ctx.selected_doc_id).isSome) :
    storedTextTotal (runSave ctx store) ctx.selected_doc_id
      = (computeSave ctx store).ttc := by
  rw [runSave_def, storedTextTotal_eq_frame, propagate_frame,
    ← storedTextTotal_eq_frame]
  exact storedTextTotal_fullMerge_self store ctx.selected_doc_id _ _ _ _ _ _ hp

theorem storedTextTotal_runSave_ne (ctx : SaveCtx) (store : Store) (q : String)
    (hq : q ≠ ctx.selected_doc_id) :
    storedTextTotal (runSave ctx store) q = storedTextTotal store q := by
  rw [runSave_def, storedTextTotal_eq_frame, propagate_frame,
    ← storedTextTotal_eq_frame]
  unfold storedTextTotal docData
  rw [getDoc_updateDoc_ne store ctx.selected_doc_id
    (applyFullEvalMerge (computeSave ctx store).marks (computeSave ctx store).ttc
      ((computeSave ctx store).mcq0 : Int) (computeSave ctx store).likert0
      (computeSave ctx store).fin (computeSave ctx store).grand)
    (fun d => rfl) q hq]

theorem storedGrand_runSave_self (ctx : SaveCtx) (store : Store)
    (hp : (getDoc store ctx.selected_doc_id).isSome) :
    storedGrand (runSave ctx store) ctx.selected_doc_id
      = some (computeSave ctx store).grand := by
  rw [runSave_def]
  rw [storedGrand_congr_getDoc _ _ ctx.selected_doc_id
    (propagate_getDoc_selId (computeSave ctx store).grand ctx.selected_doc_id
      ctx.docs _)]
  exact storedGrand_fullMerge_self store ctx.selected_doc_id _ _ _ _ _ _ hp

theorem storedGrand_runSave_other (ctx : SaveCtx) (store : Store)
    (sd : String × String) (hsd : sd ∈ ctx.docs) (hne : sd.2 ≠ ctx.selected_doc_id)
    (hp : (getDoc store sd.2).isSome) :
    storedGrand (runSave ctx store) sd.2 = some (computeSave ctx store).grand := by
  rw [runSave_def]
  apply propagate_sets_grand _ _ _ _ sd hsd hne
  rw [isSome_getDoc_updateDoc store ctx.selected_doc_id
    (applyFullEvalMerge (computeSave ctx store).marks (computeSave ctx store).ttc
      ((computeSave ctx store).mcq0 : Int) (computeSave ctx store).likert0
      (computeSave ctx store).fin (computeSave ctx store).grand)
    (fun d => rfl)]
  exact hp

/-!
Claim theorems.
-/

/-- C3 counterexample: the two Likert scorers do not apply one uniform
clamp rule. On the same likert question answered with raw value 5,
evaluation.py scores clamp(5-1, 0, 4) = 4 while export_marks.py scores 3,
so the claimed single rule clamp(v-1, 0, 4) is violated by the export
scorer. -/
theorem likert_uniform_rule_counterexample :
    calc_likert likertBank likertRespFive = 4
  ∧ calc_likert_export likertBank likertRespFive = some 3 := by decide

/-- C3 (amended): evaluation.py's calc_likert is additive over responses,
scores a parseable value v of a matched likert question as
clamp(v-1, 0, 4), and contributes 0 without raising for an unparseable
value; export_marks.py's likert_to_score maps 1, 2, 3 to v-1 but collapses
4 and 5 to 3 and sends every other integer to 0, and its calc_likert
raises (modelled as none) on an unparseable value of a matched likert
question. -/
theorem likert_scoring_rules (df : List QRow) :
    (∀ rs1 rs2 : List Response,
        calc_likert df (rs1 ++ rs2) = calc_likert df rs1 + calc_likert df rs2)
  ∧ (∀ (r : Response) (v : Int), pyInt r.resp = some v →
        isLikertMatch df r.qid = true →
        calc_likert df [r] = max 0 (min 4 (v - 1)))
  ∧ (∀ r : Response, pyInt r.resp = none → calc_likert df [r] = 0)
  ∧ (∀ v : Int, (1 ≤ v → v ≤ 3 → likert_to_score v = v - 1)
       ∧ likert_to_score 4 = 3 ∧ likert_to_score 5 = 3
       ∧ (v < 1 → likert_to_score v = 0) ∧ (5 < v → likert_to_score v = 0))
  ∧ (∀ r : Response, isLikertMatch df r.qid = true → pyInt r.resp = none →
        calc_likert_export df [r] = none) := by
  refine ⟨?_, ?_, ?_, ?_, ?_⟩
  · intro rs1 rs2
    rw [calc_likert_eq_sum, calc_likert_eq_sum, calc_likert_eq_sum,
      List.map_append, List.sum_append]
  · intro r v hv hm
    rw [calc_likert_eq_sum]
    unfold isLikertMatch at hm
    cases hfm : firstMatch df r.qid with
    | none => rw [hfm] at hm; simp at hm
    | some row =>
      rw [hfm] at hm
      have hm2 : (pyLower row.qtype == "likert") = true := hm
      simp only [List.map_cons, List.map_nil, List.sum_cons, List.sum_nil,
        add_zero]
      unfold likertContrib
      rw [hv, hfm]
      exact ite_bool_true hm2 _ _
  · intro r hv
    rw [calc_likert_eq_sum]
    simp only [List.map_cons, List.map_nil, List.sum_cons, List.sum_nil,
      add_zero]
    unfold likertContrib
    rw [hv]
  · intro v
    refine ⟨?_, by decide, by decide, ?_, ?_⟩
    · intro h1 h3
      have hv : v = 1 ∨ v = 2 ∨ v = 3 := by omega
      rcases hv with h | h | h <;> subst h <;> decide
    · intro h
      unfold likert_to_score
      split_ifs <;> omega
    · intro h
      unfold likert_to_score
      split_ifs <;> omega
  · intro r hm hv
    unfold isLikertMatch at hm
    cases hfm : firstMatch df r.qid with
    | none => rw [hfm] at hm; simp at hm
    | some row =>
      rw [hfm] at hm
      have hm2 : (pyLower row.qtype == "likert") = true := hm
      simp [calc_likert_export, List.foldlM, hfm, hv, beq_iff_eq.mp hm2]

/-- Witness for C3's amended theorem at concrete inputs. -/
theorem likert_scoring_rules_witness :
    calc_likert likertBank [⟨"1", "5"⟩] = max 0 (min 4 (5 - 1))
  ∧ calc_likert_export likertBank [⟨"1", "abc"⟩] = none :=
  ⟨(likert_scoring_rules likertBank).2.1 ⟨"1", "5"⟩ 5 (by decide) (by decide),
   (likert_scoring_rules likertBank).2.2.2.2 ⟨"1", "abc"⟩ (by decide) (by decide)⟩

/-- C5 counterexample: on a multiple-choice question whose probed answer
cell strips to the empty string, a response whose submitted value also
strips to the empty string equals the correct answer exactly (the match
count is 1), and evaluation.py counts it, but export_marks.py returns 0,
so the claimed count-of-exact-matches behaviour fails for the export
scorer. -/
theorem mcq_empty_answer_counterexample :
    calc_mcq blankAnswerBank blankResp = 1
  ∧ calc_mcq_export blankAnswerBank blankResp = 0
  ∧ (blankResp.filter (mcqExactMatch blankAnswerBank)).length = 1 := by decide

/-- C5 (amended): each multiple-choice scorer returns exactly the number
of responses passing its own exact-match test - evaluation.py counts every
exact match with a present correct answer, export_marks.py additionally
requires the correct answer to be non-empty after stripping - and both
skip responses for unknown questions and non-multiple-choice questions,
so both counts are unaffected by unrelated responses and award no partial
credit. -/
theorem mcq_exact_match_counts (df : List QRow) :
    (∀ rs, calc_mcq df rs = (rs.filter (mcqExactMatch df)).length)
  ∧ (∀ rs, calc_mcq_export df rs = (rs.filter (mcqExactMatchExport df)).length)
  ∧ (∀ (rs : List Response) (r : Response), firstMatch df r.qid = none →
        calc_mcq df (rs ++ [r]) = calc_mcq df rs
      ∧ calc_mcq_export df (rs ++ [r]) = calc_mcq_export df rs)
  ∧ (∀ (rs : List Response) (r : Response) (row : QRow),
        firstMatch df r.qid = some row → pyLower row.qtype ≠ "mcq" →
        row.qtype ≠ "mcq" →
        calc_mcq df (rs ++ [r]) = calc_mcq df rs
      ∧ calc_mcq_export df (rs ++ [r]) = calc_mcq_export df rs) := by
  have h1 : ∀ rs, calc_mcq df rs = (rs.filter (mcqExactMatch df)).length := by
    intro rs
    rw [calc_mcq_eq_sum,
      List.map_congr_left (fun r _ => mcqContrib_eq_ite df r)]
    exact sum_map_ite_one (mcqExactMatch df) rs
  have h2 : ∀ rs, calc_mcq_export df rs
      = (rs.filter (mcqExactMatchExport df)).length := by
    intro rs
    rw [calc_mcq_export_eq_sum,
      List.map_congr_left (fun r _ => mcqContribExport_eq_ite df r)]
    exact sum_map_ite_one (mcqExactMatchExport df) rs
  refine ⟨h1, h2, ?_, ?_⟩
  · intro rs r hfm
    have hm1 : mcqExactMatch df r = false := by
      unfold mcqExactMatch
      rw [hfm]
    have hm2 : mcqExactMatchExport df r = false := by
      unfold mcqExactMatchExport
      rw [hfm]
    constructor
    · rw [h1, h1, List.filter_append]
      simp [List.filter, hm1]
    · rw [h2, h2, List.filter_append]
      simp [List.filter, hm2]
  · intro rs r row hfm ht1 ht2
    have hb1 : (pyLower row.qtype == "mcq") = false := beq_eq_false_iff_ne.mpr ht1
    have hb2 : (row.qtype == "mcq") = false := beq_eq_false_iff_ne.mpr ht2
    have hm1 : mcqExactMatch df r = false := by
      have hx : mcqExactMatch df r
          = (pyLower row.qtype == "mcq" &&
             match get_correct_answer row with
             | none => false
             | some c => pyStrip r.resp == c) := by
        unfold mcqExactMatch
        rw [hfm]
      rw [hx, hb1, Bool.false_and]
    have hm2 : mcqExactMatchExport df r = false := by
      have hx : mcqExactMatchExport df r
          = (row.qtype == "mcq" &&
             match get_correct_answer row with
             | none => false
             | some c => !(c == "") && (pyStrip r.resp == c)) := by
        unfold mcqExactMatchExport
        rw [hfm]
      rw [hx, hb2, Bool.false_and]
    constructor
    · rw [h1, h1, List.filter_append]
      simp [List.filter, hm1]
    · rw [h2, h2, List.filter_append]
      simp [List.filter, hm2]

/-- Witness for C5's amended theorem: appending a response for an unknown
question changes neither scorer's count. -/
theorem mcq_exact_match_counts_witness :
    calc_mcq blankAnswerBank (blankResp ++ [⟨"9", "x"⟩])
      = calc_mcq blankAnswerBank blankResp
  ∧ calc_mcq_export blankAnswerBank (blankResp ++ [⟨"9", "x"⟩])
      = calc_mcq_export blankAnswerBank blankResp :=
  (mcq_exact_match_counts blankAnswerBank).2.2.1 blankResp ⟨"9", "x"⟩ (by decide)

/-- C9: when a question bank holds more than one row with the same
QuestionID, every scorer of both files grades with the first matching row
only; appending a duplicate row never changes any returned total. -/
theorem duplicate_rows_ignored (df : List QRow) (row : QRow)
    (rs : List Response) (h : ∃ r ∈ df, r.qid = row.qid) :
    calc_mcq (df ++ [row]) rs = calc_mcq df rs
  ∧ calc_likert (df ++ [row]) rs = calc_likert df rs
  ∧ calc_mcq_export (df ++ [row]) rs = calc_mcq_export df rs
  ∧ calc_likert_export (df ++ [row]) rs = calc_likert_export df rs := by
  have hfm : ∀ q, firstMatch (df ++ [row]) q = firstMatch df q :=
    fun q => firstMatch_append_dup df row h q
  refine ⟨?_, ?_, ?_, ?_⟩
  · unfold calc_mcq
    congr 1
    funext t r
    rw [hfm r.qid]
  · unfold calc_likert
    congr 1
    funext t r
    rw [hfm r.qid]
  · unfold calc_mcq_export
    congr 1
    funext t r
    rw [hfm r.qid]
  · unfold calc_likert_export
    congr 1
    funext t r
    rw [hfm r.qid]

/-- Witness for C9 at a concrete duplicated bank. -/
theorem duplicate_rows_ignored_witness :
    calc_mcq (blankAnswerBank ++ [dupRow]) blankResp
      = calc_mcq blankAnswerBank blankResp :=
  (duplicate_rows_ignored blankAnswerBank dupRow blankResp
    ⟨⟨"1", "mcq", some " "⟩, by decide, by decide⟩).1

/-- C8 counterexample: the identifier "A13" carries the leading non-digit
prefix "A"; the claimed rule strips it, parses 13 and yields the 0-3
scale, but the code only strips a leading q or Q, fails to parse "A13"
and yields the narrowest scale. -/
theorem text_scale_claimed_counterexample :
    get_text_scale "A13" = [0, 1]
  ∧ scale_claimed "A13" = [0, 1, 2, 3]
  ∧ get_text_scale "A13" ≠ scale_claimed "A13" := by decide

/-- C8 (amended): the award scale is determined by parsing the question
identifier as an integer after stripping surrounding whitespace and at
most one leading q or Q - no other non-digit prefix is stripped; ordinals
12, 13, 14, 16, 17, 18 give the 0-3 scale, ordinals 22, 23, 24, 25, 28,
29, 30, 34 give the 0-2 scale, every other ordinal and every unparseable
identifier gives 0-1. -/
theorem text_scale_amended_rule (qid : String) :
    get_text_scale qid = scale_amended qid := by
  have htab : ∀ p : Option Int,
      (if p.getD (-1) ∈ FOUR_MARK_QIDS then ([0, 1, 2, 3] : List Int)
       else if p.getD (-1) ∈ THREE_MARK_QIDS then [0, 1, 2]
       else [0, 1]) = scaleOfParse p := by
    intro p
    cases p with
    | none => decide
    | some n => rfl
  have hg : get_text_scale qid
      = scaleOfParse (pyInt (if pyLowerStartswithQ (pyStrip qid)
          then String.mk ((pyStrip qid).toList.drop 1) else pyStrip qid)) :=
    htab _
  rw [hg]
  cases hs : (pyStrip qid).toList with
  | nil =>
    have hq : pyLowerStartswithQ (pyStrip qid) = false := by
      unfold pyLowerStartswithQ
      rw [hs]
    have hA : scale_amended qid = scaleOfParse (pyInt (pyStrip qid)) := by
      unfold scale_amended
      rw [hs]
    rw [ite_bool_false hq, hA]
  | cons c rest =>
    by_cases hc : c = 'q' ∨ c = 'Q'
    · have hq : pyLowerStartswithQ (pyStrip qid) = true := by
        unfold pyLowerStartswithQ
        rw [hs]
        rcases hc with h | h <;> simp [h]
      have hA : scale_amended qid = scaleOfParse (pyInt (String.mk rest)) := by
        unfold scale_amended
        rw [hs]
        simp only [hc, if_true]
      rw [ite_bool_true hq]
      show scaleOfParse (pyInt (String.mk rest)) = scale_amended qid
      rw [hA]
    · have hq : pyLowerStartswithQ (pyStrip qid) = false := by
        unfold pyLowerStartswithQ
        rw [hs]
        push_neg at hc
        simp [hc.1, hc.2]
      have hA : scale_amended qid = scaleOfParse (pyInt (pyStrip qid)) := by
        unfold scale_amended
        rw [hs]
        simp only [hc, if_false]
      rw [ite_bool_false hq, hA]

/-- C10: for a student whose documents all belong to auto-evaluated
sections, the page computes and displays the auto scores and grand total
and stops: the store is returned unchanged, no Evaluation block is
created or updated, whether or not the save button state is set. -/
theorem auto_only_flow_writes_nothing (ctx : SaveCtx) (store : Store)
    (pressed : Bool) (h : ∀ sd ∈ ctx.docs, sd.1 ∉ MANUAL_TESTS) :
    runPage ctx store pressed = (auto_grand ctx.banks store ctx.docs, store) := by
  unfold runPage
  have he : (ctx.docs.filter (fun sd => sd.1 ∈ MANUAL_TESTS)).isEmpty = true := by
    rw [List.isEmpty_iff, List.filter_eq_nil_iff]
    intro sd hsd
    simpa using h sd hsd
  rw [ite_bool_true he]

/-- Witness for C10 at a concrete auto-only student. -/
theorem auto_only_flow_writes_nothing_witness :
    runPage ctxAuto storeC1 true
      = (auto_grand ctxAuto.banks storeC1 ctxAuto.docs, storeC1) :=
  auto_only_flow_writes_nothing ctxAuto storeC1 true (by decide)

/-!
Lemmas about marking scales and the marks entered in the form.
-/

theorem zero_mem_get_text_scale (q : String) : (0 : Int) ∈ get_text_scale q := by
  simp only [get_text_scale]
  split_ifs <;> decide

theorem default_mark_for_mem (saved : List (String × Int)) (q : String) :
    default_mark_for saved q ∈ get_text_scale q := by
  unfold default_mark_for
  by_cases h : (lookupMark saved q).getD 0 ∈ get_text_scale q <;>
    simp [h, zero_mem_get_text_scale q]

theorem default_index_for_lt (saved : List (String × Int)) (q : String) :
    default_index_for saved q < (get_text_scale q).length := by
  unfold default_index_for
  exact List.indexOf_lt_length.mpr (default_mark_for_mem saved q)

theorem st_radio_mem (options : List Int) (defaultIndex : Nat)
    (choice : Option Nat) (hd : defaultIndex < options.length) :
    st_radio options defaultIndex choice ∈ options := by
  unfold st_radio
  cases choice with
  | none =>
    show options.getD defaultIndex 0 ∈ options
    exact getD_mem_of_lt hd 0
  | some i =>
    show options.getD i (options.getD defaultIndex 0) ∈ options
    by_cases hi : i < options.length
    · exact getD_mem_of_lt hi _
    · rw [getD_of_le (Nat.le_of_not_lt hi)]
      exact getD_mem_of_lt hd 0

theorem marks_given_mem_scale (df : List QRow) (saved : List (String × Int))
    (choice : String → Option Nat) (q : String) (m : Int)
    (hmem : (q, m) ∈ marks_given df saved choice) : m ∈ get_text_scale q := by
  unfold marks_given at hmem
  obtain ⟨row, hrow, heq⟩ := List.mem_map.mp hmem
  have h1 : row.qid = q := congrArg Prod.fst heq
  have h2 : st_radio (get_text_scale row.qid) (default_index_for saved row.qid)
      (choice row.qid) = m := congrArg Prod.snd heq
  subst h1
  rw [← h2]
  exact st_radio_mem _ _ _ (default_index_for_lt saved row.qid)

theorem lookupMark_marks_given_scale (df : List QRow)
    (saved : List (String × Int)) (choice : String → Option Nat)
    (q : String) (m : Int)
    (h : lookupMark (marks_given df saved choice) q = some m) :
    m ∈ get_text_scale q := by
  unfold lookupMark at h
  cases hf : (marks_given df saved choice).find? (fun p => p.1 == q) with
  | none => rw [hf] at h; simp at h
  | some pr =>
    rw [hf] at h
    have hm : pr ∈ marks_given df saved choice := List.mem_of_find?_eq_some hf
    have hpq := List.find?_some hf
    have hq : pr.1 = q := beq_iff_eq.mp hpq
    have hm2 : pr.2 = m := by simpa using h
    have hmem : (q, m) ∈ marks_given df saved choice := by
      rw [← hq, ← hm2]
      exact hm
    exact marks_given_mem_scale df saved choice q m hmem

theorem lookupMark_merge_of_isSome (old new : List (String × Int)) (q : String)
    (h : (lookupMark new q).isSome) :
    lookupMark (mergeTextMarks old new) q = lookupMark new q := by
  unfold lookupMark at h ⊢
  unfold mergeTextMarks
  rw [List.find?_append]
  cases hf : new.find? (fun p => p.1 == q) with
  | none => rw [hf] at h; simp at h
  | some pr => rfl

theorem lookupMark_marks_given_isSome (df : List QRow)
    (saved : List (String × Int)) (choice : String → Option Nat) (row : QRow)
    (hrow : row ∈ short_rows df) :
    (lookupMark (marks_given df saved choice) row.qid).isSome := by
  have hmem : (row.qid,
      st_radio (get_text_scale row.qid) (default_index_for saved row.qid)
        (choice row.qid)) ∈ marks_given df saved choice :=
    List.mem_map.mpr ⟨row, hrow, rfl⟩
  unfold lookupMark
  cases hf : (marks_given df saved choice).find? (fun p => p.1 == row.qid) with
  | none =>
    have := List.find?_eq_none.mp hf _ hmem
    simp at this
  | some pr => rfl

theorem stored_marks_scale (ctx : SaveCtx) (store : Store) (q : String) (m : Int)
    (hq : ∃ row ∈ short_rows (ctx.banks ctx.selected_test), row.qid = q)
    (h : lookupMark (saved_text_marks (runSave ctx store) ctx.selected_doc_id) q
      = some m) :
    m ∈ get_text_scale q := by
  obtain ⟨row, hrow, hqid⟩ := hq
  subst hqid
  by_cases hp : (getDoc store ctx.selected_doc_id).isSome
  · have hmarks : saved_text_marks (runSave ctx store) ctx.selected_doc_id
        = mergeTextMarks (saved_text_marks store ctx.selected_doc_id)
            (computeSave ctx store).marks := by
      rw [runSave_def, saved_text_marks_eq_frame, propagate_frame,
        ← saved_text_marks_eq_frame]
      exact saved_text_marks_fullMerge_self store ctx.selected_doc_id _ _ _ _ _ _ hp
    rw [hmarks] at h
    have hsome : (lookupMark (computeSave ctx store).marks row.qid).isSome :=
      lookupMark_marks_given_isSome (ctx.banks ctx.selected_test)
        (saved_text_marks store ctx.selected_doc_id) ctx.choice row hrow
    rw [lookupMark_merge_of_isSome _ _ _ hsome] at h
    exact lookupMark_marks_given_scale (ctx.banks ctx.selected_test)
      (saved_text_marks store ctx.selected_doc_id) ctx.choice row.qid m h
  · have hno : getDoc store ctx.selected_doc_id = none := by
      cases hg : getDoc store ctx.selected_doc_id with
      | none => rfl
      | some d => rw [hg] at hp; simp at hp
    have hnone : getDoc (runSave ctx store) ctx.selected_doc_id = none := by
      rw [runSave_def, propagate_getDoc_selId,
        getDoc_updateDoc_self store ctx.selected_doc_id
          (applyFullEvalMerge (computeSave ctx store).marks
            (computeSave ctx store).ttc ((computeSave ctx store).mcq0 : Int)
            (computeSave ctx store).likert0 (computeSave ctx store).fin
            (computeSave ctx store).grand) (fun d => rfl), hno]
      rfl
    unfold saved_text_marks docData at h
    rw [hnone] at h
    simp [lookupMark] at h

/-- C6: the propagation write to each sibling document of the student
updates grand_total alone: the sibling's text_marks, text_total,
mcq_total, likert_total and final_total fields, together with its
top-level Roll, Section and Responses fields, are unchanged by the save,
for every sibling document and every prior state of its Evaluation
block. -/
theorem sibling_write_updates_grand_alone (ctx : SaveCtx) (store : Store)
    (q : String) (hq : q ≠ ctx.selected_doc_id) :
    evalFrame ((docData (runSave ctx store) q).evaluation)
      = evalFrame ((docData store q).evaluation)
  ∧ topFields (docData (runSave ctx store) q) = topFields (docData store q) := by
  constructor
  · rw [runSave_def, propagate_frame]
    unfold docData
    rw [getDoc_updateDoc_ne store ctx.selected_doc_id
      (applyFullEvalMerge (computeSave ctx store).marks (computeSave ctx store).ttc
        ((computeSave ctx store).mcq0 : Int) (computeSave ctx store).likert0
        (computeSave ctx store).fin (computeSave ctx store).grand)
      (fun d => rfl) q hq]
  · exact runSave_topFields ctx store q

/-- Witness for C6: saving document A leaves document B's own Evaluation
fields and top-level fields untouched. -/
theorem sibling_write_updates_grand_alone_witness :
    evalFrame ((docData (runSave ctxC1 storeC1) "B").evaluation)
      = evalFrame ((docData storeC1 "B").evaluation)
  ∧ topFields (docData (runSave ctxC1 storeC1) "B")
      = topFields (docData storeC1 "B") :=
  sibling_write_updates_grand_alone ctxC1 storeC1 "B" (by decide)

/-- C7: marks recorded for free-text questions respect the question's
award scale. Every mark produced by the marking form lies in its
question's scale; the preselected default is the previously saved mark
clamped into the scale, with an out-of-scale saved mark (such as 4 for
"Q13" in the 0-3 group) replaced by 0; and after a save, every stored
text_marks entry of the selected document for a free-text question of its
bank lies in that question's scale. -/
theorem text_marks_within_scale :
    (∀ (df : List QRow) (saved : List (String × Int))
        (choice : String → Option Nat) (q : String) (m : Int),
        (q, m) ∈ marks_given df saved choice → m ∈ get_text_scale q)
  ∧ (∀ (saved : List (String × Int)) (q : String),
        default_mark_for saved q ∈ get_text_scale q
      ∧ ((lookupMark saved q).getD 0 ∉ get_text_scale q →
          default_mark_for saved q = 0))
  ∧ (∀ (ctx : SaveCtx) (store : Store) (q : String) (m : Int),
        (∃ row ∈ short_rows (ctx.banks ctx.selected_test), row.qid = q) →
        lookupMark (saved_text_marks (runSave ctx store) ctx.selected_doc_id) q
          = some m →
        m ∈ get_text_scale q) := by
  refine ⟨marks_given_mem_scale, ?_, stored_marks_scale⟩
  intro saved q
  refine ⟨default_mark_for_mem saved q, ?_⟩
  intro h
  show (if (lookupMark saved q).getD 0 ∈ get_text_scale q
    then (lookupMark saved q).getD 0 else 0) = 0
  rw [if_neg h]

/-- Witness for C7: Scenario B - a previously saved mark of 4 for "Q13"
(scale 0-3) is clamped to 0. -/
theorem text_marks_within_scale_witness :
    default_mark_for [("Q13", 4)] "Q13" ∈ get_text_scale "Q13"
  ∧ default_mark_for [("Q13", 4)] "Q13" = 0 :=
  ⟨(text_marks_within_scale.2.1 [("Q13", 4)] "Q13").1,
   (text_marks_within_scale.2.1 [("Q13", 4)] "Q13").2 (by decide)⟩

/-- C1 counterexample: saving document A for student R stores grand_total
4 on both documents (B's fresh likert score), but the sum of final totals
stored in the store is 0, because B's Evaluation block holds only the
merged grand_total and no final_total; the claimed invariant fails. -/
theorem grand_total_invariant_counterexample :
    storedGrand (runSave ctxC1 storeC1) "A" = some 4
  ∧ storedGrand (runSave ctxC1 storeC1) "B" = some 4
  ∧ sumFinals (runSave ctxC1 storeC1) "R" = 0 := by decide

/-- C1 (amended): after a save, every document of the student (as
enumerated by the page, each present in the store, the selected document
being exactly the documents of the selected section) stores one and the
same grand_total, and that value equals the sum across the student's
documents of final totals recomputed from the post-save store as fresh
mcq and likert scores plus the stored text_total; it does not in general
equal the sum of the stored final_total fields. -/
theorem save_grand_total_consistency (ctx : SaveCtx) (store : Store)
    (hpres : ∀ sd ∈ ctx.docs, (getDoc store sd.2).isSome)
    (hsec : ∀ sd ∈ ctx.docs,
      sd.1 = ctx.selected_test ↔ sd.2 = ctx.selected_doc_id) :
    (∀ sd ∈ ctx.docs,
        storedGrand (runSave ctx store) sd.2 = some (computeSave ctx store).grand)
  ∧ (computeSave ctx store).grand
      = sumRecomputeFinal ctx.banks (runSave ctx store) ctx.docs := by
  constructor
  · intro sd hsd
    by_cases h2 : sd.2 = ctx.selected_doc_id
    · rw [h2]
      exact storedGrand_runSave_self ctx store (h2 ▸ hpres sd hsd)
    · exact storedGrand_runSave_other ctx store sd hsd h2 (hpres sd hsd)
  · have hgrand : (computeSave ctx store).grand
        = grand_total_calc ctx store (computeSave ctx store).ttc := rfl
    rw [hgrand]
    unfold grand_total_calc sumRecomputeFinal
    rw [foldl_add_map_sum (docContribution ctx store (computeSave ctx store).ttc)
      ctx.docs 0, zero_add]
    refine congrArg List.sum (List.map_congr_left ?_)
    intro sd hsd
    simp only [docContribution, recomputeFinal]
    rw [doc_auto_runSave]
    by_cases h2 : sd.2 = ctx.selected_doc_id
    · have h1 : sd.1 = ctx.selected_test := (hsec sd hsd).mpr h2
      rw [ite_bool_true (beq_iff_eq.mpr h1), h2,
        storedTextTotal_runSave_self ctx store (h2 ▸ hpres sd hsd)]
    · have h1 : sd.1 ≠ ctx.selected_test := fun hh => h2 ((hsec sd hsd).mp hh)
      rw [ite_bool_false (beq_eq_false_iff_ne.mpr h1),
        storedTextTotal_runSave_ne ctx store sd.2 h2]

/-- Witness for C1's amended theorem on the concrete two-document
student. -/
theorem save_grand_total_consistency_witness :
    storedGrand (runSave ctxC1 storeC1) "B" = some (computeSave ctxC1 storeC1).grand
  ∧ (computeSave ctxC1 storeC1).grand
      = sumRecomputeFinal ctxC1.banks (runSave ctxC1 storeC1) ctxC1.docs :=
  ⟨(save_grand_total_consistency ctxC1 storeC1 (by decide) (by decide)).1
      ("Adaptability & Learning", "B") (by decide),
   (save_grand_total_consistency ctxC1 storeC1 (by decide) (by decide)).2⟩

/-- C2 counterexample: the sibling document B carries last-persisted
final_total 100, but its fresh recomputation is 0; the save computes
grand total 0 while the claimed rule (selected test's fresh final plus
siblings' persisted final_totals) gives 100. The input is reachable: the
selected test's bank is non-empty, so the page passes the empty-bank
guard, the full flow runs the save and persists grand_total 0 while B's
stored final_total is still 100. -/
theorem grand_total_inputs_counterexample :
    (computeSave ctxC2 storeC2).grand = 0
  ∧ grand_total_claimed ctxC2 storeC2 = 100
  ∧ (banksC2 ctxC2.selected_test).isEmpty = false
  ∧ runPage ctxC2 storeC2 true
      = ((computeSave ctxC2 storeC2).grand, runSave ctxC2 storeC2)
  ∧ storedGrand (runSave ctxC2 storeC2) "A" = some 0
  ∧ storedFinal (runSave ctxC2 storeC2) "B" = 100 := by decide

/-- C2 (amended): on save, the grand total is computed as the sum over
every one of the student's documents (the selected test included) of its
freshly recomputed mcq and likert scores plus a text component: the
just-entered marking total for documents of the selected section, and the
last-persisted text_total otherwise - the fallback being 0 when the
document is absent or unevaluated. -/
theorem grand_total_computation_amended (ctx : SaveCtx) (store : Store)
    (ttc : Int) :
    grand_total_calc ctx store ttc = grand_total_amended ctx store ttc
  ∧ (∀ q : String,
      (getDoc store q = none ∨ (docData store q).evaluation = none) →
      storedTextTotal store q = 0) := by
  constructor
  · unfold grand_total_calc grand_total_amended
    rw [foldl_add_map_sum (docContribution ctx store ttc) ctx.docs 0, zero_add]
    refine congrArg List.sum (List.map_congr_left ?_)
    intro sd hsd
    simp only [docContribution]
    by_cases h : sd.1 = ctx.selected_test
    · rw [ite_bool_true (beq_iff_eq.mpr h), if_pos h]
    · rw [ite_bool_false (beq_eq_false_iff_ne.mpr h), if_neg h]
  · intro q hq
    rcases hq with hq | hq
    · unfold storedTextTotal docData
      rw [hq]
      rfl
    · unfold storedTextTotal
      rw [hq]

/-- Witness for C2's amended theorem. -/
theorem grand_total_computation_amended_witness :
    grand_total_calc ctxC2 storeC2 0 = grand_total_amended ctxC2 storeC2 0
  ∧ storedTextTotal storeC2 "Z" = 0 :=
  ⟨(grand_total_computation_amended ctxC2 storeC2 0).1,
   (grand_total_computation_amended ctxC2 storeC2 0).2 "Z" (Or.inl (by decide))⟩

/-- C4: the save protocol has no per-student serialization, so the
lost-update anomaly the claim rules out does occur. Both sessions read
the baseline store: one computes grand total 3, the other 4; after both
write, every document stores grand_total 4, not the serialized outcome 7
- which the same save code does produce when the two saves run one after
the other. -/
theorem lost_update_race :
    (computeSave ctxA4 storeC4).grand = 3
  ∧ (computeSave ctxC4 storeC4).grand = 4
  ∧ storedGrand racedStore "A" = some 4
  ∧ storedGrand racedStore "C" = some 4
  ∧ storedGrand (runSave ctxC4 (runSave ctxA4 storeC4)) "A" = some 7
  ∧ storedGrand (runSave ctxC4 (runSave ctxA4 storeC4)) "C" = some 7 := by
  decide

end Skill2025
